import Mathlib

/-!
Shallow embedding of the MCP physics scene compiler
(`physics_engine_reconstructed_MCP_tools.py` and the class-based variant
`physics_engine_in_class.py`).

Python values flowing through the compiler are JSON-like: numbers, strings,
booleans, lists and string-keyed dictionaries.  Numbers are modelled as exact
rationals (`ℚ`); `np.pi` is modelled as the IEEE-754 double closest to pi
(the exact rational value of the `np.pi` constant) and `np.sqrt` as the exact
nonnegative rational square root wherever one exists (floating-point rounding
is not modelled).  Dictionaries are insertion-ordered association lists, with
Python's overwrite-in-place update semantics.  Exceptions are modelled with
`Except PyErr`; the two `except` clauses of the compiler distinguish
`KeyError`/`ValueError` from every other exception.
-/

inductive Val : Type where
  | num : ℚ → Val
  | str : String → Val
  | bool : Bool → Val
  | list : List Val → Val
  | dict : List (String × Val) → Val

/-- Python dictionary with string keys, as an insertion-ordered association list. -/
abbrev Obj : Type := List (String × Val)

mutual

/-- Structural equality on values, as Python `==` compares JSON-like data. -/
def Val.beq : Val → Val → Bool
  | .num a, .num b => a == b
  | .str a, .str b => a == b
  | .bool a, .bool b => a == b
  | .list a, .list b => Val.beqList a b
  | .dict a, .dict b => Val.beqFields a b
  | _, _ => false

/-- Pointwise structural equality of value lists. -/
def Val.beqList : List Val → List Val → Bool
  | [], [] => true
  | a :: as, b :: bs => Val.beq a b && Val.beqList as bs
  | _, _ => false

/-- Pointwise structural equality of dictionary entries. -/
def Val.beqFields : List (String × Val) → List (String × Val) → Bool
  | [], [] => true
  | (k, a) :: as, (l, b) :: bs => k == l && Val.beq a b && Val.beqFields as bs
  | _, _ => false

end

/-- Exceptions raised by the compiler's Python code.  `key`/`val` are
`KeyError`/`ValueError` (caught together by the first `except` clause);
`other` is any other exception (caught by the second, catch-all clause). -/
inductive PyErr : Type where
  | key : String → PyErr
  | val : String → PyErr
  | other : String → PyErr

/-- Dictionary lookup, `d.get(k)` returning `None` as `none` when absent. -/
def dget : Obj → String → Option Val
  | [], _ => none
  | (k', v') :: rest, k => if k' = k then some v' else dget rest k

/-- Python `k in d` membership test. -/
def hasKey (d : Obj) (k : String) : Bool := (dget d k).isSome

/-- Python `d.get(k, default)`. -/
def getDefault (d : Obj) (k : String) (dflt : Val) : Val := (dget d k).getD dflt

/-- Python `d[k] = v`: replace the value in place when the key is present,
append the new entry otherwise. -/
def dset : Obj → String → Val → Obj
  | [], k, v => [(k, v)]
  | (k', v') :: rest, k, v => if k' = k then (k', v) :: rest else (k', v') :: dset rest k v

/-- The ID lookup table built by the compiler: keys are the (arbitrary,
hashable) values stored under `"id"`, values are the raw object records. -/
abbrev ObjMap : Type := List (Val × Obj)

/-- Python dict insertion for the ID table: overwrite in place or append. -/
def omInsert : ObjMap → Val → Obj → ObjMap
  | [], k, v => [(k, v)]
  | (k', v') :: rest, k, v =>
      if Val.beq k' k then (k', v) :: rest else (k', v') :: omInsert rest k v

/-- Lookup in the ID table (Python `m[k]` / `k in m`, by structural equality). -/
def omLookup : ObjMap → Val → Option Obj
  | [], _ => none
  | (k', v') :: rest, k => if Val.beq k' k then some v' else omLookup rest k

/-- Python hashability of a JSON-like value: lists and dicts are unhashable
and cannot serve as dictionary keys. -/
def isHashable : Val → Bool
  | .list _ => false
  | .dict _ => false
  | _ => true

/-- Rendering of a value inside an f-string error message.  Strings render
as themselves (Python `str`); the remaining cases are a simplified rendering
(only string IDs occur in the behaviour the specification describes). -/
def strOfVal : Val → String
  | .str s => s
  | .num q => toString q
  | .bool b => cond b "True" "False"
  | .list _ => "[...]"
  | .dict _ => "{...}"

/-- Default gravitational acceleration, module constant `G = 9.8`. -/
def G : ℚ := 9.8

/-- The exact rational value of the IEEE-754 double `np.pi`. -/
def npPi : ℚ := 884279719003555 / 281474976710656

/-- Exact nonnegative rational square root, the idealisation of `np.sqrt`
on the arguments the compiler feeds it: on the square of a nonnegative
rational it returns that rational exactly (floating-point rounding on
non-squares is not modelled). -/
def ratSqrt (q : ℚ) : ℚ :=
  if q ≤ 0 then 0 else (Nat.sqrt q.num.toNat : ℚ) / (Nat.sqrt q.den : ℚ)

/-- The `==` comparison of a Python expression against a string literal, as
in `obj.get("shape") == "box"`: true exactly when the value is that string. -/
def isStrEq (v : Option Val) (s : String) : Bool :=
  match v with
  | some (.str t) => t == s
  | _ => false

/-- Reading a numeric field `v[k]` of a position-like dictionary: `KeyError`
when the key is absent, `TypeError` when `v` is not a dictionary or the
field does not support arithmetic. -/
def getNum (v : Val) (k : String) : Except PyErr ℚ :=
  match v with
  | .dict d =>
      match dget d k with
      | some (.num q) => .ok q
      | some _ => .error (.other "unsupported operand type")
      | none => .error (.key k)
  | _ => .error (.other "value is not subscriptable")

/-- Embedding of `_calculate_density(obj)`: density from mass and shape
dimensions, with default mass 1.0, default box size {1,1}, default radius
1.0, fallback area 1.0 for unknown shapes, and the degenerate-area guard
returning 1.0 when the area is exactly 0. -/
def calculate_density (obj : Obj) : Except PyErr ℚ :=
  let mass := getDefault obj "mass" (.num 1)
  let areaE : Except PyErr ℚ :=
    if isStrEq (dget obj "shape") "box" then
      match getDefault obj "size" (.dict [("width", .num 1), ("height", .num 1)]) with
      | .dict sz =>
          match dget sz "width" with
          | none => .error (.key "width")
          | some wv =>
              match dget sz "height" with
              | none => .error (.key "height")
              | some hv =>
                  match wv, hv with
                  | .num w, .num h => .ok (w * h)
                  | _, _ => .error (.other "unsupported operand type")
      | _ => .error (.other "value is not subscriptable")
    else if isStrEq (dget obj "shape") "circle" then
      match getDefault obj "radius" (.num 1) with
      | .num r => .ok (npPi * r ^ 2)
      | _ => .error (.other "unsupported operand type")
    else .ok 1
  match areaE with
  | .error e => .error e
  | .ok area =>
      if area = 0 then .ok 1
      else
        match mass with
        | .num m => .ok (m / area)
        | _ => .error (.other "unsupported operand type")

/-- Geometry part of `_prepare_pulley_joint`, reached once both referenced
objects have been resolved: reads the two positions and the anchor, computes
the two rope lengths, and assembles the fully parameterised joint record.
Identical in both compiler variants. -/
def pulleyCompute (joint : Obj) (aId bId : Val) (objA objB : Obj) : Except PyErr Obj :=
  match dget objA "position" with
  | none => .error (.key "position")
  | some posA =>
  match dget objB "position" with
  | none => .error (.key "position")
  | some posB =>
  match dget joint "pulley_anchor_pos" with
  | none => .error (.key "pulley_anchor_pos")
  | some pulleyPos =>
  match getNum posA "x" with
  | .error e => .error e
  | .ok ax =>
  match getNum pulleyPos "x" with
  | .error e => .error e
  | .ok px =>
  match getNum posA "y" with
  | .error e => .error e
  | .ok ay =>
  match getNum pulleyPos "y" with
  | .error e => .error e
  | .ok py =>
  match getNum posB "x" with
  | .error e => .error e
  | .ok bx =>
  match getNum posB "y" with
  | .error e => .error e
  | .ok bY =>
  .ok
    [("type", .str "PulleyJoint"),
     ("object_a_id", aId),
     ("object_b_id", bId),
     ("ground_anchor_a", pulleyPos),
     ("ground_anchor_b", pulleyPos),
     ("local_anchor_a", .dict [("x", .num 0), ("y", .num 0)]),
     ("local_anchor_b", .dict [("x", .num 0), ("y", .num 0)]),
     ("length_a", .num (ratSqrt ((ax - px) ^ 2 + (ay - py) ^ 2))),
     ("length_b", .num (ratSqrt ((bx - px) ^ 2 + (bY - py) ^ 2))),
     ("ratio", getDefault joint "ratio" (.num 1))]

/-- Embedding of `_prepare_pulley_joint(joint_mcp, objects_map)`,
parameterised by the text of the referential-integrity `ValueError` (the
only difference between the module-level and the class-based variant). -/
def preparePulleyGen (mkMsg : Val → Val → String) (joint : Obj) (objectsMap : ObjMap) :
    Except PyErr Obj :=
  match dget joint "object_a_id" with
  | none => .error (.key "object_a_id")
  | some aId =>
      match dget joint "object_b_id" with
      | none => .error (.key "object_b_id")
      | some bId =>
          match omLookup objectsMap aId, omLookup objectsMap bId with
          | some objA, some objB => pulleyCompute joint aId bId objA objB
          | _, _ => .error (.val (mkMsg aId bId))

/-- Referential-integrity message of the module-level compiler. -/
def msgEN (a b : Val) : String :=
  "Object ID not found for PulleyJoint creation: " ++ strOfVal a ++ " or " ++ strOfVal b

/-- Referential-integrity message of the class-based compiler. -/
def msgZH (a b : Val) : String :=
  "为滑轮关节引用的对象ID不存在: " ++ strOfVal a ++ " 或 " ++ strOfVal b

/-- Module-level `_prepare_pulley_joint`. -/
def prepare_pulley_joint : Obj → ObjMap → Except PyErr Obj :=
  preparePulleyGen msgEN

/-- Python `mcp_data.get(k, default)`: `AttributeError` when the receiver is
not a dictionary. -/
def dictGet (mcp : Val) (k : String) (dflt : Val) : Except PyErr Val :=
  match mcp with
  | .dict fs => .ok (getDefault fs k dflt)
  | _ => .error (.other "object has no attribute get")

/-- Python iteration `for x in v`: lists yield their elements, strings their
characters, dictionaries their keys; other values raise `TypeError`. -/
def pyIter : Val → Except PyErr (List Val)
  | .list xs => .ok xs
  | .str s => .ok (s.toList.map fun c => .str (String.mk [c]))
  | .dict fs => .ok (fs.map fun kv => .str kv.1)
  | _ => .error (.other "object is not iterable")

/-- Iterating `mcp_data.get(k, [])`, as both compiler loops do. -/
def dictGetSeq (mcp : Val) (k : String) : Except PyErr (List Val) :=
  match dictGet mcp k (.list []) with
  | .error e => .error e
  | .ok v => pyIter v

/-- The dict comprehension `{obj['id']: obj for obj in objects}` building the
ID table: `KeyError('id')` for a record without an `id`, `TypeError` for a
non-dictionary element or an unhashable `id` value; later duplicates
overwrite earlier ones. -/
def buildObjectsMap : List Val → ObjMap → Except PyErr ObjMap
  | [], m => .ok m
  | v :: rest, m =>
      match v with
      | .dict f =>
          match dget f "id" with
          | none => .error (.key "id")
          | some idv =>
              if isHashable idv then buildObjectsMap rest (omInsert m idv f)
              else .error (.other "unhashable type")
      | _ => .error (.other "value is not subscriptable")

/-- Elaboration of one object record in the compile loop: copy the record
and, for `type == "dynamic"` only, fill in `density` (mass-derived when
`mass` is present and `density` absent, default 1.0 when both absent,
untouched when `density` is already present). -/
def compileObject (obj : Obj) : Except PyErr Obj :=
  if isStrEq (dget obj "type") "dynamic" then
    if hasKey obj "mass" && !hasKey obj "density" then
      match calculate_density obj with
      | .ok d => .ok (dset obj "density" (.num d))
      | .error e => .error e
    else if !hasKey obj "density" then .ok (dset obj "density" (.num 1))
    else .ok obj
  else .ok obj

/-- The object compilation loop: elaborate every record in input order;
a non-dictionary element has no `.copy()` and raises. -/
def compileObjects : List Val → Except PyErr (List Val)
  | [] => .ok []
  | v :: rest =>
      match v with
      | .dict f =>
          match compileObject f with
          | .ok g =>
              match compileObjects rest with
              | .ok out => .ok (.dict g :: out)
              | .error e => .error e
          | .error e => .error e
      | _ => .error (.other "object has no attribute copy")

/-- The joint compilation loop, parameterised by the pulley resolver:
`PulleyJoint` records are resolved, every other dictionary record is passed
through unchanged, in input order; a non-dictionary element has no `.get`
and raises. -/
def compileJoints (prep : Obj → ObjMap → Except PyErr Obj) (m : ObjMap) :
    List Val → Except PyErr (List Val)
  | [] => .ok []
  | j :: rest =>
      match j with
      | .dict jf =>
          if isStrEq (dget jf "type") "PulleyJoint" then
            match prep jf m with
            | .ok pj =>
                match compileJoints prep m rest with
                | .ok out => .ok (.dict pj :: out)
                | .error e => .error e
            | .error e => .error e
          else
            match compileJoints prep m rest with
            | .ok out => .ok (.dict jf :: out)
            | .error e => .error e
      | _ => .error (.other "object has no attribute get")

/-- The default world record `{"gravity": {"x": 0, "y": -G}}`. -/
def defaultWorld (g : ℚ) : Val :=
  .dict [("gravity", .dict [("x", .num 0), ("y", .num (-g))])]

/-- The body of the `try` block shared by `build_scene_from_mcp` and
`PhysicsSceneCompiler.compile_scene`: read or default the world, build the
ID table, elaborate the objects, compile the joints, and assemble the final
scene; parameterised by the referential-integrity message text and by the
gravitational constant (the only differences between the two sources). -/
def buildSceneCoreGen (mkMsg : Val → Val → String) (g : ℚ) (mcp : Val) : Except PyErr Val :=
  match dictGet mcp "world" (defaultWorld g) with
  | .error e => .error e
  | .ok world =>
      match dictGetSeq mcp "objects" with
      | .error e => .error e
      | .ok objsList =>
          match buildObjectsMap objsList [] with
          | .error e => .error e
          | .ok objectsMap =>
              match compileObjects objsList with
              | .error e => .error e
              | .ok outObjs =>
                  match dictGetSeq mcp "joints" with
                  | .error e => .error e
                  | .ok jointsList =>
                      match compileJoints (preparePulleyGen mkMsg) objectsMap jointsList with
                      | .error e => .error e
                      | .ok outJoints =>
                          .ok (.dict [("world", world), ("objects", .list outObjs),
                                      ("joints", .list outJoints)])

/-- The error envelope of the module-level compiler: `str(e)` of a
`KeyError` is the `repr` of the missing key. -/
def formatErrEN : PyErr → String
  | .key k => "Error processing MCP data: Invalid or missing key. Details: " ++ ("'" ++ k ++ "'")
  | .val msg => "Error processing MCP data: Invalid or missing key. Details: " ++ msg
  | .other msg => "An unexpected error occurred in the scene compiler: " ++ msg

/-- The error envelope of the class-based compiler. -/
def formatErrZH : PyErr → String
  | .key k => "处理MCP数据时出错：无效或缺失的键。详情: " ++ ("'" ++ k ++ "'")
  | .val msg => "处理MCP数据时出错：无效或缺失的键。详情: " ++ msg
  | .other msg => "场景编译器发生意外错误: " ++ msg

/-- Embedding of the module-level `build_scene_from_mcp(mcp_data)`: the
two-slot `(scene_data_or_none, error_message_or_none)` result. -/
def build_scene_from_mcp (mcp : Val) : Option Val × Option String :=
  match buildSceneCoreGen msgEN G mcp with
  | .ok scene => (some (.dict [("planck_scene", scene)]), none)
  | .error e => (none, some (formatErrEN e))

/-- The class `PhysicsSceneCompiler`, holding the configured gravitational
constant (constructor default 9.8). -/
structure PhysicsSceneCompiler : Type where
  G : ℚ

/-- Embedding of `PhysicsSceneCompiler.compile_scene(self, mcp_data)`. -/
def PhysicsSceneCompiler.compile_scene (c : PhysicsSceneCompiler) (mcp : Val) :
    Option Val × Option String :=
  match buildSceneCoreGen msgZH c.G mcp with
  | .ok scene => (some (.dict [("planck_scene", scene)]), none)
  | .error e => (none, some (formatErrZH e))

/-- Concrete example object A at position {x:0, y:0}. -/
def exObjA : Obj := [("id", .str "A"), ("position", .dict [("x", .num 0), ("y", .num 0)])]

/-- Concrete example object B at position {x:0, y:10}. -/
def exObjB : Obj := [("id", .str "B"), ("position", .dict [("x", .num 0), ("y", .num 10)])]

/-- Concrete ID table for the pulley example. -/
def exMap : ObjMap := [(.str "A", exObjA), (.str "B", exObjB)]

/-- Concrete PulleyJoint between A and B anchored at {x:0, y:5}, no ratio. -/
def exPulley : Obj :=
  [("type", .str "PulleyJoint"), ("object_a_id", .str "A"), ("object_b_id", .str "B"),
   ("pulley_anchor_pos", .dict [("x", .num 0), ("y", .num 5)])]

/-- Concrete dynamic box of the spec's density example: mass 10, 2 by 5. -/
def exBox : Obj :=
  [("id", .str "crate"), ("type", .str "dynamic"), ("shape", .str "box"),
   ("size", .dict [("width", .num 2), ("height", .num 5)]), ("mass", .num 10),
   ("position", .dict [("x", .num 0), ("y", .num 0)])]

/-- Concrete dynamic circle with radius 0 and a mass. -/
def exZeroCircle : Obj :=
  [("id", .str "dot"), ("type", .str "dynamic"), ("shape", .str "circle"),
   ("radius", .num 0), ("mass", .num 3)]

/-- Concrete document with a PulleyJoint referencing the nonexistent id
`ghost`. -/
def exGhostDoc : Val :=
  .dict [("objects", .list [.dict [("id", .str "ground"), ("type", .str "static")]]),
         ("joints", .list [.dict [("type", .str "PulleyJoint"),
                                  ("object_a_id", .str "ghost"),
                                  ("object_b_id", .str "ground"),
                                  ("pulley_anchor_pos",
                                   .dict [("x", .num 0), ("y", .num 5)])]])]

/-- Pass-through property of one joint slot: when the input is a dictionary
record whose `type` is not the string `"PulleyJoint"` (including a missing
`type`), the output slot is that record unchanged. -/
def passThruRel (j o : Val) : Prop :=
  ∀ jf : Obj, j = .dict jf → isStrEq (dget jf "type") "PulleyJoint" = false → o = j

/-- Correspondence between one input object slot and one output slot: the
input is a dictionary record and the output is its elaboration. -/
def elabRel (v o : Val) : Prop :=
  ∃ f g : Obj, v = .dict f ∧ compileObject f = .ok g ∧ o = .dict g

/-- The last record in the list whose `id` field is the given string. -/
def lastWithId (objs : List Val) (s : String) : Option Obj :=
  match objs with
  | [] => none
  | v :: rest =>
      match lastWithId rest s with
      | some o => some o
      | none =>
          match v with
          | .dict f =>
              match dget f "id" with
              | some (.str t) => if t = s then some f else none
              | _ => none
          | _ => none

/-- Agreement of two fallible computations: identical successes, or both
failures (the errors may differ). -/
def exceptAgrees {α : Type} : Except PyErr α → Except PyErr α → Prop
  | .ok a, .ok b => a = b
  | .error _, .error _ => True
  | _, _ => False

/-- Concrete static object without `type`-dependent elaboration. -/
def exStatic : Obj := [("id", .str "ground"), ("type", .str "static")]

/-- Concrete non-pulley joint record. -/
def exRevolute : Obj := [("type", .str "RevoluteJoint"), ("object_a_id", .str "ground")]

/-- Concrete document with one static object and one pass-through joint. -/
def exPassDoc : Val :=
  .dict [("objects", .list [.dict exStatic]), ("joints", .list [.dict exRevolute])]

/-- Concrete document whose only object record has no `id` key. -/
def exNoIdDoc : Val :=
  .dict [("objects", .list [.dict [("type", .str "static")]]), ("joints", .list [])]

/-- First record with the duplicated id `A`. -/
def exDupA1 : Obj := [("id", .str "A"), ("position", .dict [("x", .num 0), ("y", .num 0)])]

/-- Second record with the duplicated id `A`, at a different position. -/
def exDupA2 : Obj := [("id", .str "A"), ("position", .dict [("x", .num 0), ("y", .num 7)])]

/-! ### Helper lemmas -/

/-- The modelled `np.sqrt` never returns a negative value. -/
theorem ratSqrt_nonneg (q : ℚ) : 0 ≤ ratSqrt q := by
  unfold ratSqrt
  split
  · exact le_refl 0
  · exact div_nonneg (Nat.cast_nonneg _) (Nat.cast_nonneg _)

/-- On the square of a nonnegative rational, the modelled `np.sqrt` returns
that rational exactly: it computes the Euclidean distance whenever the
distance is representable. -/
theorem ratSqrt_unique (q r : ℚ) (h0 : 0 ≤ r) (hsq : r ^ 2 = q) : ratSqrt q = r := by
  rcases eq_or_lt_of_le h0 with h | h
  · rw [← hsq, ← h]
    norm_num [ratSqrt]
  · have hq : 0 < q := hsq ▸ pow_pos h 2
    rw [ratSqrt, if_neg (not_le.mpr hq)]
    have hnum : q.num = r.num ^ 2 := by rw [← hsq]; exact Rat.num_pow r 2
    have hden : q.den = r.den ^ 2 := by rw [← hsq]; exact Rat.den_pow r 2
    have hrnum : 0 < r.num := Rat.num_pos.mpr h
    obtain ⟨n, hn⟩ := Int.eq_ofNat_of_zero_le hrnum.le
    have h1 : q.num.toNat = n ^ 2 := by
      rw [hnum, hn, ← Nat.cast_pow, Int.toNat_natCast]
    have h2 : Nat.sqrt q.num.toNat = n := by rw [h1, Nat.sqrt_eq']
    have h3 : Nat.sqrt q.den = r.den := by rw [hden, Nat.sqrt_eq']
    rw [h2, h3]
    have h4 : ((n : ℕ) : ℚ) = ((r.num : ℤ) : ℚ) := by rw [hn]; push_cast; ring
    rw [h4, Rat.num_div_den]

/-- Setting a key then reading a different key reads the original dictionary. -/
theorem dget_dset_ne (d : Obj) (k k' : String) (v : Val) (h : k' ≠ k) :
    dget (dset d k v) k' = dget d k' := by
  induction d with
  | nil =>
      simp only [dset, dget]
      rw [if_neg (fun hh : k = k' => h hh.symm)]
  | cons hd tl ih =>
      obtain ⟨a, b⟩ := hd
      simp only [dset]
      rcases eq_or_ne a k with hak | hak
      · subst hak
        simp only [if_pos rfl, dget]
        rw [if_neg (fun hh : a = k' => h hh.symm)]
        rw [if_neg (fun hh : a = k' => h hh.symm)]
      · rw [if_neg hak]
        simp only [dget, ih]

/-- Setting a key then reading it back yields the new value. -/
theorem dget_dset_same (d : Obj) (k : String) (v : Val) :
    dget (dset d k v) k = some v := by
  induction d with
  | nil => simp [dset, dget]
  | cons hd tl ih =>
      obtain ⟨a, b⟩ := hd
      simp only [dset]
      rcases eq_or_ne a k with hak | hak
      · subst hak; simp [dget]
      · rw [if_neg hak]; simp only [dget, if_neg hak, ih]

/-! ### Claim theorems -/

/-- C4: for every input value, well-formed or not, `build_scene_from_mcp`
returns a two-slot pair with exactly one slot filled: either
`(some scene, none)` on success or `(none, some message)` on failure; every
failure of the computation is caught and converted to the second shape. -/
theorem c4_result_envelope (mcp : Val) :
    (∃ scene, build_scene_from_mcp mcp = (some scene, none)) ∨
    (∃ msg, build_scene_from_mcp mcp = (none, some msg)) := by
  unfold build_scene_from_mcp
  cases buildSceneCoreGen msgEN G mcp with
  | ok s => exact Or.inl ⟨_, rfl⟩
  | error e => exact Or.inr ⟨_, rfl⟩

/-- C8: the compiler is deterministic — it is a pure function of its input,
so equal input documents compile to identical results. -/
theorem c8_deterministic (d₁ d₂ : Val) (h : d₁ = d₂) :
    build_scene_from_mcp d₁ = build_scene_from_mcp d₂ := by rw [h]

/-- Witness for C8 at a concrete document. -/
theorem c8_deterministic_witness :
    (Val.dict [("objects", Val.list [])] : Val) = Val.dict [("objects", Val.list [])] ∧
    build_scene_from_mcp (Val.dict [("objects", Val.list [])]) =
      build_scene_from_mcp (Val.dict [("objects", Val.list [])]) :=
  ⟨rfl, c8_deterministic (Val.dict [("objects", Val.list [])])
    (Val.dict [("objects", Val.list [])]) rfl⟩

/-- C3: a `PulleyJoint` whose two object references resolve compiles to the
record with both ground anchors equal to `pulley_anchor_pos`, both local
anchors `{x:0, y:0}`, `length_a`/`length_b` the Euclidean distance from the
respective object's position to the anchor (hence nonnegative, and equal to
any exact nonnegative square root of the squared distance), and `ratio`
taken from the input with default 1.0. -/
theorem c3_pulley_joint_fields (joint : Obj) (m : ObjMap) (aId bId : Val)
    (objA objB pA pB pp : Obj) (ax ay bx bY px py : ℚ)
    (ha : dget joint "object_a_id" = some aId)
    (hb : dget joint "object_b_id" = some bId)
    (hma : omLookup m aId = some objA)
    (hmb : omLookup m bId = some objB)
    (hposA : dget objA "position" = some (.dict pA))
    (hposB : dget objB "position" = some (.dict pB))
    (hax : dget pA "x" = some (.num ax)) (hay : dget pA "y" = some (.num ay))
    (hbx : dget pB "x" = some (.num bx)) (hbY : dget pB "y" = some (.num bY))
    (hanchor : dget joint "pulley_anchor_pos" = some (.dict pp))
    (hpx : dget pp "x" = some (.num px)) (hpy : dget pp "y" = some (.num py)) :
    prepare_pulley_joint joint m = .ok
      [("type", .str "PulleyJoint"),
       ("object_a_id", aId),
       ("object_b_id", bId),
       ("ground_anchor_a", .dict pp),
       ("ground_anchor_b", .dict pp),
       ("local_anchor_a", .dict [("x", .num 0), ("y", .num 0)]),
       ("local_anchor_b", .dict [("x", .num 0), ("y", .num 0)]),
       ("length_a", .num (ratSqrt ((ax - px) ^ 2 + (ay - py) ^ 2))),
       ("length_b", .num (ratSqrt ((bx - px) ^ 2 + (bY - py) ^ 2))),
       ("ratio", getDefault joint "ratio" (.num 1))]
    ∧ 0 ≤ ratSqrt ((ax - px) ^ 2 + (ay - py) ^ 2)
    ∧ 0 ≤ ratSqrt ((bx - px) ^ 2 + (bY - py) ^ 2)
    ∧ (∀ r : ℚ, 0 ≤ r → r ^ 2 = (ax - px) ^ 2 + (ay - py) ^ 2 →
         ratSqrt ((ax - px) ^ 2 + (ay - py) ^ 2) = r)
    ∧ (∀ r : ℚ, 0 ≤ r → r ^ 2 = (bx - px) ^ 2 + (bY - py) ^ 2 →
         ratSqrt ((bx - px) ^ 2 + (bY - py) ^ 2) = r)
    ∧ (dget joint "ratio" = none → getDefault joint "ratio" (.num 1) = .num 1)
    ∧ (∀ v, dget joint "ratio" = some v → getDefault joint "ratio" (.num 1) = v) := by
  refine ⟨?_, ratSqrt_nonneg _, ratSqrt_nonneg _,
    fun r hr hsq => ratSqrt_unique _ r hr hsq,
    fun r hr hsq => ratSqrt_unique _ r hr hsq,
    fun hnone => by simp [getDefault, hnone],
    fun v hsome => by simp [getDefault, hsome]⟩
  simp only [prepare_pulley_joint, preparePulleyGen, ha, hb, hma, hmb, pulleyCompute,
    hposA, hposB, hanchor, getNum, hax, hay, hbx, hbY, hpx, hpy]

/-- Witness for C3: the spec's concrete example, lengths 5.0 and 5.0,
default ratio 1.0, mirrored anchors. -/
theorem c3_pulley_joint_fields_witness :
    dget exPulley "ratio" = none ∧
    prepare_pulley_joint exPulley exMap = .ok
      [("type", .str "PulleyJoint"),
       ("object_a_id", .str "A"),
       ("object_b_id", .str "B"),
       ("ground_anchor_a", .dict [("x", .num 0), ("y", .num 5)]),
       ("ground_anchor_b", .dict [("x", .num 0), ("y", .num 5)]),
       ("local_anchor_a", .dict [("x", .num 0), ("y", .num 0)]),
       ("local_anchor_b", .dict [("x", .num 0), ("y", .num 0)]),
       ("length_a", .num 5),
       ("length_b", .num 5),
       ("ratio", .num 1)] := by
  have h := c3_pulley_joint_fields exPulley exMap (.str "A") (.str "B") exObjA exObjB
      [("x", .num 0), ("y", .num 0)] [("x", .num 0), ("y", .num 10)]
      [("x", .num 0), ("y", .num 5)] 0 0 0 10 0 5
      rfl rfl rfl rfl rfl rfl rfl rfl rfl rfl rfl rfl rfl
  have e1 : ratSqrt (((0 : ℚ) - 0) ^ 2 + ((0 : ℚ) - 5) ^ 2) = 5 :=
    h.2.2.2.1 5 (by norm_num) (by norm_num)
  have e2 : ratSqrt (((0 : ℚ) - 0) ^ 2 + ((10 : ℚ) - 5) ^ 2) = 5 :=
    h.2.2.2.2.1 5 (by norm_num) (by norm_num)
  have e3 := h.2.2.2.2.2.1 rfl
  have h1 := h.1
  rw [e1, e2, e3] at h1
  exact ⟨rfl, h1⟩

/-- A value equal (as Python `==`) to one string literal is not equal to a
different one. -/
theorem isStrEq_of_ne (v : Option Val) (s t : String) (h : isStrEq v s = true)
    (hne : t ≠ s) : isStrEq v t = false := by
  unfold isStrEq at h ⊢
  rcases v with _ | x
  · simp at h
  · cases x <;> simp_all
    exact fun hh => hne hh.symm

/-- C2: object elaboration copies the record and touches only `density`:
non-dynamic records and records that already carry `density` pass through
unchanged; a dynamic record without `density` gains `density = 1.0` when
`mass` is absent, and `density = mass / area` when `mass` is present, with
area `width*height` for a box (size defaulting to `{width:1, height:1}`),
`pi*radius^2` for a circle (radius defaulting to 1.0) and 1.0 for any other
or missing shape; every other field is preserved. -/
theorem c2_object_elaboration (obj : Obj) :
    (isStrEq (dget obj "type") "dynamic" = false → compileObject obj = .ok obj)
  ∧ (hasKey obj "density" = true → compileObject obj = .ok obj)
  ∧ (isStrEq (dget obj "type") "dynamic" = true → hasKey obj "density" = false →
       hasKey obj "mass" = false → compileObject obj = .ok (dset obj "density" (.num 1)))
  ∧ (∀ m : ℚ, isStrEq (dget obj "type") "dynamic" = true → hasKey obj "density" = false →
       dget obj "mass" = some (.num m) →
       ( (isStrEq (dget obj "shape") "box" = false → isStrEq (dget obj "shape") "circle" = false →
            compileObject obj = .ok (dset obj "density" (.num m)))
       ∧ (∀ (w h : ℚ) (sz : Obj), isStrEq (dget obj "shape") "box" = true →
            dget obj "size" = some (.dict sz) →
            dget sz "width" = some (.num w) → dget sz "height" = some (.num h) → w * h ≠ 0 →
            compileObject obj = .ok (dset obj "density" (.num (m / (w * h)))))
       ∧ (isStrEq (dget obj "shape") "box" = true → dget obj "size" = none →
            compileObject obj = .ok (dset obj "density" (.num m)))
       ∧ (∀ r : ℚ, isStrEq (dget obj "shape") "circle" = true →
            dget obj "radius" = some (.num r) → r ≠ 0 →
            compileObject obj = .ok (dset obj "density" (.num (m / (npPi * r ^ 2)))))
       ∧ (isStrEq (dget obj "shape") "circle" = true → dget obj "radius" = none →
            compileObject obj = .ok (dset obj "density" (.num (m / npPi))))))
  ∧ (∀ out, compileObject obj = .ok out → ∀ k, k ≠ "density" → dget out k = dget obj k) := by
  refine ⟨?_, ?_, ?_, ?_, ?_⟩
  · intro ht; simp [compileObject, ht]
  · intro hd
    cases ht : isStrEq (dget obj "type") "dynamic" <;> simp [compileObject, ht, hd]
  · intro ht hd hm; simp [compileObject, ht, hd, hm]
  · intro m ht hd hm
    have hmk : hasKey obj "mass" = true := by simp [hasKey, hm]
    refine ⟨?_, ?_, ?_, ?_, ?_⟩
    · intro hsb hsc
      simp [compileObject, ht, hd, hmk, calculate_density, hsb, hsc, getDefault, hm]
    · intro w h sz hsb hsz hw hh hwh
      simp [compileObject, ht, hd, hmk, calculate_density, hsb, hsz, hw, hh, hwh,
        getDefault, hm]
    · intro hsb hsz
      simp [compileObject, ht, hd, hmk, calculate_density, hsb, hsz, getDefault, hm, dget]
    · intro r hsc hr hr0
      have hsb : isStrEq (dget obj "shape") "box" = false :=
        isStrEq_of_ne _ "circle" "box" hsc (by decide)
      have harea : npPi * r ^ 2 ≠ 0 :=
        mul_ne_zero (by norm_num [npPi]) (pow_ne_zero _ hr0)
      simp [compileObject, ht, hd, hmk, calculate_density, hsb, hsc, hr, harea,
        getDefault, hm]
    · intro hsc hr
      have hsb : isStrEq (dget obj "shape") "box" = false :=
        isStrEq_of_ne _ "circle" "box" hsc (by decide)
      have harea : npPi ≠ 0 := by norm_num [npPi]
      simp [compileObject, ht, hd, hmk, calculate_density, hsb, hsc, hr, harea,
        getDefault, hm]
  · intro out hout k hk
    cases ht : isStrEq (dget obj "type") "dynamic"
    · simp [compileObject, ht] at hout; rw [← hout]
    · cases hd : hasKey obj "density"
      · cases hm : hasKey obj "mass"
        · simp [compileObject, ht, hd, hm] at hout
          rw [← hout, dget_dset_ne _ _ _ _ hk]
        · cases hc : calculate_density obj with
          | ok d =>
              simp [compileObject, ht, hd, hm, hc] at hout
              rw [← hout, dget_dset_ne _ _ _ _ hk]
          | error e => simp [compileObject, ht, hd, hm, hc] at hout
      · simp [compileObject, ht, hd] at hout; rw [← hout]

/-- Witness for C2: the mass-10 2-by-5 dynamic box gains density 10/10 = 1. -/
theorem c2_object_elaboration_witness :
    dget exBox "mass" = some (.num 10) ∧
    compileObject exBox = .ok (dset exBox "density" (.num 1)) := by
  have h := ((c2_object_elaboration exBox).2.2.2.1 10 rfl rfl rfl).2.1 2 5
      [("width", .num 2), ("height", .num 5)] rfl rfl rfl rfl (by norm_num)
  have e : (10 : ℚ) / (2 * 5) = 1 := by norm_num
  rw [e] at h
  exact ⟨rfl, h⟩

/-- C6: a dynamic object carrying a mass and no explicit density whose
computed area is exactly 0 (circle of radius 0, or box with zero width or
height) is assigned density 1.0 instead of dividing by zero, and
elaboration succeeds. -/
theorem c6_degenerate_area (obj : Obj)
    (ht : isStrEq (dget obj "type") "dynamic" = true)
    (hd : hasKey obj "density" = false)
    (hm : hasKey obj "mass" = true) :
    (isStrEq (dget obj "shape") "circle" = true → dget obj "radius" = some (.num 0) →
       compileObject obj = .ok (dset obj "density" (.num 1)))
  ∧ (∀ (sz : Obj) (w h : ℚ), isStrEq (dget obj "shape") "box" = true →
       dget obj "size" = some (.dict sz) →
       dget sz "width" = some (.num w) → dget sz "height" = some (.num h) → w * h = 0 →
       compileObject obj = .ok (dset obj "density" (.num 1))) := by
  constructor
  · intro hsc hr
    have hsb : isStrEq (dget obj "shape") "box" = false :=
      isStrEq_of_ne _ "circle" "box" hsc (by decide)
    simp [compileObject, ht, hd, hm, calculate_density, hsb, hsc, hr, getDefault]
  · intro sz w h hsb hsz hw hh hwh
    simp [compileObject, ht, hd, hm, calculate_density, hsb, hsz, hw, hh, hwh, getDefault]

/-- Witness for C6: the radius-0 circle with mass 3 gets density 1.0. -/
theorem c6_degenerate_area_witness :
    hasKey exZeroCircle "mass" = true ∧
    compileObject exZeroCircle = .ok (dset exZeroCircle "density" (.num 1)) :=
  ⟨rfl, (c6_degenerate_area exZeroCircle rfl rfl rfl).1 rfl rfl⟩

/-- The joint loop distributes over list append: the output is the
concatenation of the outputs, and the first error aborts. -/
theorem compileJoints_append (p : Obj → ObjMap → Except PyErr Obj) (m : ObjMap)
    (xs ys : List Val) :
    compileJoints p m (xs ++ ys) =
      match compileJoints p m xs with
      | .error e => .error e
      | .ok out1 =>
          match compileJoints p m ys with
          | .error e => .error e
          | .ok out2 => .ok (out1 ++ out2) := by
  induction xs with
  | nil =>
      simp only [List.nil_append, compileJoints]
      cases h : compileJoints p m ys <;> simp
  | cons j xs ih =>
      cases j with
      | dict jf =>
          simp only [List.cons_append, compileJoints]
          cases htype : isStrEq (dget jf "type") "PulleyJoint"
          · simp only [htype, Bool.false_eq_true, if_false]
            rw [List.append_eq, ih]
            cases h1 : compileJoints p m xs <;> cases h2 : compileJoints p m ys <;>
              simp [h1, h2]
          · simp only [htype, if_true]
            cases hp : p jf m
            · simp
            · rw [List.append_eq, ih]
              cases h1 : compileJoints p m xs <;> cases h2 : compileJoints p m ys <;>
                simp [h1, h2]
      | num q => simp [compileJoints]
      | str s => simp [compileJoints]
      | bool b => simp [compileJoints]
      | list l => simp [compileJoints]

/-- C1: a `PulleyJoint` whose `object_a_id` or `object_b_id` does not
resolve in the ID table makes the whole compile call return `(none, msg)`
with the message naming both referenced ids; nothing of the already
processed objects or joints is delivered. -/
theorem c1_referential_integrity (fields : Obj)
    (objsList js pre post preJs outObjs : List Val)
    (m : ObjMap) (jf : Obj) (aId bId : Val)
    (hobjs : dictGetSeq (.dict fields) "objects" = .ok objsList)
    (hmap : buildObjectsMap objsList [] = .ok m)
    (hcobj : compileObjects objsList = .ok outObjs)
    (hjoints : dictGetSeq (.dict fields) "joints" = .ok js)
    (hsplit : js = pre ++ .dict jf :: post)
    (hpre : compileJoints prepare_pulley_joint m pre = .ok preJs)
    (htype : isStrEq (dget jf "type") "PulleyJoint" = true)
    (ha : dget jf "object_a_id" = some aId)
    (hb : dget jf "object_b_id" = some bId)
    (hmiss : omLookup m aId = none ∨ omLookup m bId = none) :
    build_scene_from_mcp (.dict fields) =
      (none, some ("Error processing MCP data: Invalid or missing key. Details: " ++
        ("Object ID not found for PulleyJoint creation: " ++ strOfVal aId ++ " or " ++
          strOfVal bId))) := by
  have hprep : prepare_pulley_joint jf m = .error (.val (msgEN aId bId)) := by
    simp only [prepare_pulley_joint, preparePulleyGen, ha, hb]
    rcases hmiss with h | h
    · cases h2 : omLookup m bId <;> simp [h, h2]
    · cases h2 : omLookup m aId <;> simp [h, h2]
  have hcons : compileJoints prepare_pulley_joint m (.dict jf :: post) =
      .error (.val (msgEN aId bId)) := by
    simp [compileJoints, htype, hprep]
  unfold build_scene_from_mcp buildSceneCoreGen
  simp only [prepare_pulley_joint] at hpre hcons
  simp only [dictGet, hobjs, hmap, hcobj, hjoints, hsplit, compileJoints_append, hpre, hcons]
  simp [formatErrEN, msgEN]

/-- Witness for C1: compiling the ghost-reference document yields `none`
plus an error message naming `ghost` and `ground`. -/
theorem c1_referential_integrity_witness :
    omLookup [(Val.str "ground", [("id", Val.str "ground"), ("type", Val.str "static")])]
      (Val.str "ghost") = none ∧
    build_scene_from_mcp exGhostDoc =
      (none, some ("Error processing MCP data: Invalid or missing key. Details: " ++
        ("Object ID not found for PulleyJoint creation: " ++ "ghost" ++ " or " ++
          "ground"))) := by
  refine ⟨rfl, ?_⟩
  exact c1_referential_integrity
    [("objects", .list [.dict [("id", .str "ground"), ("type", .str "static")]]),
     ("joints", .list [.dict [("type", .str "PulleyJoint"),
                              ("object_a_id", .str "ghost"),
                              ("object_b_id", .str "ground"),
                              ("pulley_anchor_pos", .dict [("x", .num 0), ("y", .num 5)])]])]
    [.dict [("id", .str "ground"), ("type", .str "static")]]
    [.dict [("type", .str "PulleyJoint"), ("object_a_id", .str "ghost"),
            ("object_b_id", .str "ground"),
            ("pulley_anchor_pos", .dict [("x", .num 0), ("y", .num 5)])]]
    [] []
    []
    [.dict [("id", .str "ground"), ("type", .str "static")]]
    [(.str "ground", [("id", .str "ground"), ("type", .str "static")])]
    [("type", .str "PulleyJoint"), ("object_a_id", .str "ghost"),
     ("object_b_id", .str "ground"),
     ("pulley_anchor_pos", .dict [("x", .num 0), ("y", .num 5)])]
    (.str "ghost") (.str "ground")
    rfl rfl rfl rfl rfl rfl rfl rfl rfl (Or.inl rfl)

/-- A successful object loop relates input and output pointwise in order. -/
theorem compileObjects_forall₂ (objs out : List Val)
    (h : compileObjects objs = .ok out) : List.Forall₂ elabRel objs out := by
  induction objs generalizing out with
  | nil =>
      simp only [compileObjects] at h
      injection h with h
      subst h
      exact List.Forall₂.nil
  | cons v rest ih =>
      cases v with
      | dict f =>
          cases hc : compileObject f with
          | ok g =>
              cases hr : compileObjects rest with
              | ok out' =>
                  simp only [compileObjects, hc, hr] at h
                  injection h with h
                  subst h
                  exact List.Forall₂.cons ⟨f, g, rfl, hc, rfl⟩ (ih _ hr)
              | error e => simp [compileObjects, hc, hr] at h
          | error e => simp [compileObjects, hc] at h
      | num q => simp [compileObjects] at h
      | str s => simp [compileObjects] at h
      | bool b => simp [compileObjects] at h
      | list l => simp [compileObjects] at h

/-- A successful joint loop relates input and output pointwise in order;
non-pulley records are passed through unchanged. -/
theorem compileJoints_forall₂ (p : Obj → ObjMap → Except PyErr Obj) (m : ObjMap)
    (js out : List Val) (h : compileJoints p m js = .ok out) :
    List.Forall₂ passThruRel js out := by
  induction js generalizing out with
  | nil =>
      simp only [compileJoints] at h
      injection h with h
      subst h
      exact List.Forall₂.nil
  | cons j rest ih =>
      cases j with
      | dict jf =>
          cases htype : isStrEq (dget jf "type") "PulleyJoint"
          · cases hr : compileJoints p m rest with
            | ok out' =>
                simp only [compileJoints, htype, Bool.false_eq_true, if_false, hr] at h
                injection h with h
                subst h
                refine List.Forall₂.cons ?_ (ih _ hr)
                intro jf' heq htype'
                exact rfl
            | error e => simp [compileJoints, htype, hr] at h
          · cases hp : p jf m with
            | ok pj =>
                cases hr : compileJoints p m rest with
                | ok out' =>
                    simp only [compileJoints, htype, if_true, hp, hr] at h
                    injection h with h
                    subst h
                    refine List.Forall₂.cons ?_ (ih _ hr)
                    intro jf' heq htype'
                    injection heq with heq
                    subst heq
                    rw [htype] at htype'
                    cases htype'
                | error e => simp [compileJoints, htype, hp, hr] at h
            | error e => simp [compileJoints, htype, hp] at h
      | num q => simp [compileJoints] at h
      | str s => simp [compileJoints] at h
      | bool b => simp [compileJoints] at h
      | list l => simp [compileJoints] at h

/-- Inversion of a successful compile: every stage succeeded and the scene
is assembled from the stages' outputs. -/
theorem coreGen_ok_inversion (mkMsg : Val → Val → String) (g : ℚ) (mcp scene : Val)
    (h : buildSceneCoreGen mkMsg g mcp = .ok scene) :
    ∃ w objsList m outObjs js outJs,
      dictGet mcp "world" (defaultWorld g) = .ok w ∧
      dictGetSeq mcp "objects" = .ok objsList ∧
      buildObjectsMap objsList [] = .ok m ∧
      compileObjects objsList = .ok outObjs ∧
      dictGetSeq mcp "joints" = .ok js ∧
      compileJoints (preparePulleyGen mkMsg) m js = .ok outJs ∧
      scene = .dict [("world", w), ("objects", .list outObjs), ("joints", .list outJs)] := by
  unfold buildSceneCoreGen at h
  cases hW : dictGet mcp "world" (defaultWorld g) with
  | error e => rw [hW] at h; simp at h
  | ok w =>
  rw [hW] at h
  dsimp only at h
  cases hO : dictGetSeq mcp "objects" with
  | error e => rw [hO] at h; simp at h
  | ok objsList =>
  rw [hO] at h
  dsimp only at h
  cases hM : buildObjectsMap objsList [] with
  | error e => rw [hM] at h; simp at h
  | ok m =>
  rw [hM] at h
  dsimp only at h
  cases hC : compileObjects objsList with
  | error e => rw [hC] at h; simp at h
  | ok outObjs =>
  rw [hC] at h
  dsimp only at h
  cases hJ : dictGetSeq mcp "joints" with
  | error e => rw [hJ] at h; simp at h
  | ok js =>
  rw [hJ] at h
  dsimp only at h
  cases hCJ : compileJoints (preparePulleyGen mkMsg) m js with
  | error e => rw [hCJ] at h; simp at h
  | ok outJs =>
  rw [hCJ] at h
  dsimp only at h
  injection h with h
  exact ⟨w, objsList, m, outObjs, js, outJs, rfl, rfl, hM, hC, rfl, hCJ, h.symm⟩

/-- C7: on a successful compile, every non-PulleyJoint record of the input
joints list (including records with a missing type) appears unchanged at
its own position of the output joints list, the joint order is the input
order with computed pulley joints interleaved in place, and the output
objects list is the elaboration of the input objects list in input order. -/
theorem c7_passthrough_order (mcp w : Val) (objsList js outObjs outJs : List Val)
    (hobjs : dictGetSeq mcp "objects" = .ok objsList)
    (hjoints : dictGetSeq mcp "joints" = .ok js)
    (hbuild : build_scene_from_mcp mcp =
      (some (.dict [("planck_scene",
        .dict [("world", w), ("objects", .list outObjs), ("joints", .list outJs)])]), none)) :
    List.Forall₂ passThruRel js outJs ∧ List.Forall₂ elabRel objsList outObjs := by
  unfold build_scene_from_mcp at hbuild
  cases hcore : buildSceneCoreGen msgEN G mcp with
  | error e => rw [hcore] at hbuild; simp at hbuild
  | ok scene =>
      rw [hcore] at hbuild
      simp only [Prod.mk.injEq, Option.some.injEq, and_true] at hbuild
      obtain ⟨w', objsList', m, outObjs', js', outJs', hW, hO, hM, hC, hJ, hCJ, hs⟩ :=
        coreGen_ok_inversion _ _ _ _ hcore
      subst hs
      simp only [Val.dict.injEq, List.cons.injEq, Prod.mk.injEq, Val.list.injEq,
        and_true, true_and] at hbuild
      obtain ⟨-, houts, houtj⟩ := hbuild
      rw [hobjs] at hO
      injection hO with hO
      rw [hjoints] at hJ
      injection hJ with hJ
      subst hO
      subst hJ
      subst houts
      subst houtj
      exact ⟨compileJoints_forall₂ _ _ _ _ hCJ, compileObjects_forall₂ _ _ hC⟩

/-- Witness for C7: a RevoluteJoint record passes through unchanged and the
single static object is elaborated in place. -/
theorem c7_passthrough_order_witness :
    dictGetSeq exPassDoc "joints" = .ok [.dict exRevolute] ∧
    List.Forall₂ passThruRel [.dict exRevolute] [.dict exRevolute] ∧
    List.Forall₂ elabRel [.dict exStatic] [.dict exStatic] := by
  have h := c7_passthrough_order exPassDoc (defaultWorld G)
      [.dict exStatic] [.dict exRevolute] [.dict exStatic] [.dict exRevolute]
      rfl rfl rfl
  exact ⟨rfl, h.1, h.2⟩

/-- Python equality against a string key holds exactly for that string value. -/
theorem beq_str_iff (v : Val) (s : String) : Val.beq v (.str s) = true ↔ v = .str s := by
  cases v <;> simp [Val.beq]

/-- Symmetric form of `beq_str_iff`. -/
theorem str_beq_iff (s : String) (v : Val) : Val.beq (.str s) v = true ↔ v = .str s := by
  cases v <;> simp [Val.beq]
  exact comm

/-- Inserting under the key `.str s` and looking `.str s` up finds the new
value. -/
theorem omLookup_insert_self (m : ObjMap) (k : Val) (v : Obj) (s : String)
    (hk : k = .str s) : omLookup (omInsert m k v) (.str s) = some v := by
  subst hk
  induction m with
  | nil =>
      simp [omInsert, omLookup, (str_beq_iff s (.str s)).mpr rfl]
  | cons kv rest ih =>
      obtain ⟨k', v'⟩ := kv
      simp only [omInsert]
      cases hb : Val.beq k' (.str s)
      · simp only [Bool.false_eq_true, if_false, omLookup, hb]
        exact ih
      · simp only [if_true, omLookup, hb]

/-- Inserting under a key different from `.str s` leaves the `.str s`
lookup unchanged. -/
theorem omLookup_insert_other (m : ObjMap) (k : Val) (v : Obj) (s : String)
    (hk : k ≠ .str s) : omLookup (omInsert m k v) (.str s) = omLookup m (.str s) := by
  induction m with
  | nil =>
      have hb : Val.beq k (.str s) = false := by
        cases hbb : Val.beq k (.str s)
        · rfl
        · exact absurd ((beq_str_iff k s).mp hbb) hk
      simp [omInsert, omLookup, hb]
  | cons kv rest ih =>
      obtain ⟨k', v'⟩ := kv
      simp only [omInsert]
      cases hb : Val.beq k' k
      · simp only [Bool.false_eq_true, if_false, omLookup]
        cases hbs : Val.beq k' (.str s)
        · simp only [Bool.false_eq_true, if_false, ih]
        · simp only [if_true]
      · simp only [if_true, omLookup]
        cases hbs : Val.beq k' (.str s)
        · simp only [Bool.false_eq_true, if_false]
        · exfalso
          have hk' : k' = Val.str s := (beq_str_iff k' s).mp hbs
          subst hk'
          exact hk ((str_beq_iff s k).mp hb)

/-- Looking up a string id in the table built by the comprehension finds
the last input record carrying that id (later records overwrite earlier
ones), falling back to the initial table. -/
theorem buildObjectsMap_lookup (objs : List Val) (m₀ m : ObjMap) (s : String)
    (h : buildObjectsMap objs m₀ = .ok m) :
    omLookup m (.str s) =
      match lastWithId objs s with
      | some o => some o
      | none => omLookup m₀ (.str s) := by
  induction objs generalizing m₀ with
  | nil =>
      simp only [buildObjectsMap] at h
      injection h with h
      subst h
      simp [lastWithId]
  | cons v rest ih =>
      cases v with
      | dict f =>
          cases hid : dget f "id" with
          | none => simp [buildObjectsMap, hid] at h
          | some idv =>
              cases hhash : isHashable idv
              · simp [buildObjectsMap, hid, hhash] at h
              · simp only [buildObjectsMap, hid, hhash, if_true] at h
                have := ih (omInsert m₀ idv f) h
                rw [this]
                simp only [lastWithId]
                cases lr : lastWithId rest s
                · cases idv with
                  | str t =>
                      by_cases hts : t = s
                      · subst hts
                        simp [hid, omLookup_insert_self m₀ (.str t) f t rfl]
                      · have hne : Val.str t ≠ Val.str s := by
                          intro hh; injection hh with hh; exact hts hh
                        simp [hid, hts, omLookup_insert_other m₀ (.str t) f s hne]
                  | num q =>
                      simp [hid, omLookup_insert_other m₀ (.num q) f s (by intro hh; cases hh)]
                  | bool b =>
                      simp [hid, omLookup_insert_other m₀ (.bool b) f s (by intro hh; cases hh)]
                  | list l =>
                      simp [hid, omLookup_insert_other m₀ (.list l) f s (by intro hh; cases hh)]
                  | dict d =>
                      simp [hid, omLookup_insert_other m₀ (.dict d) f s (by intro hh; cases hh)]
                · simp
      | num q => simp [buildObjectsMap] at h
      | str t => simp [buildObjectsMap] at h
      | bool b => simp [buildObjectsMap] at h
      | list l => simp [buildObjectsMap] at h

/-- The comprehension succeeds on any list of dictionary records that all
carry a hashable id, duplicates included. -/
theorem buildObjectsMap_ok (objs : List Val) (m₀ : ObjMap)
    (h : ∀ v ∈ objs, ∃ f : Obj, v = .dict f ∧
        ∃ idv, dget f "id" = some idv ∧ isHashable idv = true) :
    ∃ m, buildObjectsMap objs m₀ = .ok m := by
  induction objs generalizing m₀ with
  | nil => exact ⟨m₀, rfl⟩
  | cons v rest ih =>
      obtain ⟨f, hv, idv, hid, hhash⟩ := h v (List.mem_cons_self v rest)
      subst hv
      simp only [buildObjectsMap, hid, hhash, if_true]
      exact ih (omInsert m₀ idv f) (fun x hx => h x (List.mem_cons_of_mem _ hx))

/-- C9: duplicate object ids are not an error — the ID table builds
successfully for any list of records with (possibly repeated) hashable
ids, a lookup of a string id finds the last input record carrying it, and
a successful object loop still emits every record (duplicates included)
in input order. -/
theorem c9_duplicate_ids :
    (∀ (objs : List Val) (m₀ : ObjMap),
       (∀ v ∈ objs, ∃ f : Obj, v = .dict f ∧
           ∃ idv, dget f "id" = some idv ∧ isHashable idv = true) →
       ∃ m, buildObjectsMap objs m₀ = .ok m)
  ∧ (∀ (objs : List Val) (m : ObjMap) (s : String),
       buildObjectsMap objs [] = .ok m →
       omLookup m (.str s) = lastWithId objs s)
  ∧ (∀ (objs out : List Val), compileObjects objs = .ok out →
       List.Forall₂ elabRel objs out) := by
  refine ⟨buildObjectsMap_ok, ?_, compileObjects_forall₂⟩
  intro objs m s h
  rw [buildObjectsMap_lookup objs [] m s h]
  cases lastWithId objs s <;> simp [omLookup]

/-- Witness for C9: two records with id `A`; the table keeps the second. -/
theorem c9_duplicate_ids_witness :
    buildObjectsMap [.dict exDupA1, .dict exDupA2] [] = .ok [(.str "A", exDupA2)] ∧
    omLookup [(.str "A", exDupA2)] (.str "A") =
      lastWithId [.dict exDupA1, .dict exDupA2] "A" ∧
    lastWithId [.dict exDupA1, .dict exDupA2] "A" = some exDupA2 := by
  refine ⟨rfl, ?_, rfl⟩
  exact c9_duplicate_ids.2.1 [.dict exDupA1, .dict exDupA2] [(.str "A", exDupA2)] "A" rfl

/-- Non-dynamic records elaborate to themselves, so the object loop returns
the input list unchanged. -/
theorem compileObjects_ok_of_nondynamic (objs : List Val)
    (h : ∀ v ∈ objs, ∃ f : Obj, v = .dict f ∧ isStrEq (dget f "type") "dynamic" = false) :
    compileObjects objs = .ok objs := by
  induction objs with
  | nil => rfl
  | cons v rest ih =>
      obtain ⟨f, hv, ht⟩ := h v (List.mem_cons_self v rest)
      subst hv
      have hobj : compileObject f = .ok f := by simp [compileObject, ht]
      simp [compileObjects, hobj, ih (fun x hx => h x (List.mem_cons_of_mem _ hx))]

/-- A joints list of non-pulley records passes through as-is. -/
theorem compileJoints_ok_of_passthrough (p : Obj → ObjMap → Except PyErr Obj)
    (m : ObjMap) (js : List Val)
    (h : ∀ j ∈ js, ∃ jf : Obj, j = .dict jf ∧
        isStrEq (dget jf "type") "PulleyJoint" = false) :
    compileJoints p m js = .ok js := by
  induction js with
  | nil => rfl
  | cons j rest ih =>
      obtain ⟨jf, hj, ht⟩ := h j (List.mem_cons_self j rest)
      subst hj
      simp [compileJoints, ht, ih (fun x hx => h x (List.mem_cons_of_mem _ hx))]

/-- Counterexample to C5 as stated: a document whose only object record
omits `id` fails the whole compile call with a KeyError on `id`, even
though it has no joints at all — omission of `id` is not tolerated. -/
theorem c5_id_required_counterexample :
    build_scene_from_mcp exNoIdDoc =
      (none, some "Error processing MCP data: Invalid or missing key. Details: 'id'") := rfl

/-- C5 as amended: omission of `type`, `shape` or `position` alone never
fails the compile call — objects lacking them (and every non-dynamic
record) elaborate unchanged, and a whole document of such records with
string ids and non-pulley joints compiles successfully; a missing
`position` on a referenced object raises its KeyError only at pulley
resolution; but omission of `id` always fails: the ID-table comprehension
raises KeyError `id` for any record without it. -/
theorem c5_lazy_validation_amended :
    (∀ obj : Obj, isStrEq (dget obj "type") "dynamic" = false → compileObject obj = .ok obj)
  ∧ (∀ (fields : Obj) (objs js : List Val),
       dictGetSeq (.dict fields) "objects" = .ok objs →
       (∀ v ∈ objs, ∃ f : Obj, v = .dict f ∧ (∃ s, dget f "id" = some (.str s)) ∧
          isStrEq (dget f "type") "dynamic" = false) →
       dictGetSeq (.dict fields) "joints" = .ok js →
       (∀ j ∈ js, ∃ jf : Obj, j = .dict jf ∧
          isStrEq (dget jf "type") "PulleyJoint" = false) →
       ∃ scene, build_scene_from_mcp (.dict fields) = (some scene, none))
  ∧ (∀ (jf objA objB : Obj) (m : ObjMap) (aId bId : Val),
       dget jf "object_a_id" = some aId → dget jf "object_b_id" = some bId →
       omLookup m aId = some objA → omLookup m bId = some objB →
       dget objA "position" = none →
       prepare_pulley_joint jf m = .error (.key "position"))
  ∧ (∀ (f : Obj) (rest : List Val) (m₀ : ObjMap), dget f "id" = none →
       buildObjectsMap (.dict f :: rest) m₀ = .error (.key "id")) := by
  refine ⟨?_, ?_, ?_, ?_⟩
  · intro obj ht
    simp [compileObject, ht]
  · intro fields objs js hobjs hobj hjoints hjs
    obtain ⟨m, hm⟩ := buildObjectsMap_ok objs [] (by
      intro v hv
      obtain ⟨f, hvf, ⟨s, hs⟩, -⟩ := hobj v hv
      exact ⟨f, hvf, .str s, hs, rfl⟩)
    have hco : compileObjects objs = .ok objs :=
      compileObjects_ok_of_nondynamic objs
        (fun v hv => (hobj v hv).imp (fun f hf => ⟨hf.1, hf.2.2⟩))
    have hcj : compileJoints (preparePulleyGen msgEN) m js = .ok js :=
      compileJoints_ok_of_passthrough _ m js hjs
    refine ⟨.dict [("planck_scene",
      .dict [("world", getDefault fields "world" (defaultWorld G)),
             ("objects", .list objs), ("joints", .list js)])], ?_⟩
    unfold build_scene_from_mcp buildSceneCoreGen
    simp only [dictGet, hobjs, hm, hco, hjoints, hcj]
  · intro jf objA objB m aId bId ha hb hma hmb hpos
    simp only [prepare_pulley_joint, preparePulleyGen, ha, hb, hma, hmb, pulleyCompute, hpos]
  · intro f rest m₀ hid
    simp [buildObjectsMap, hid]

/-- Witness for the amended C5: an object carrying only an `id` (no type,
shape or position) plus a pass-through joint compiles successfully. -/
theorem c5_lazy_validation_witness :
    isStrEq (dget ([("id", Val.str "a")] : Obj) "type") "dynamic" = false ∧
    (∃ scene, build_scene_from_mcp
        (.dict [("objects", .list [.dict [("id", .str "a")]]),
                ("joints", .list [.dict [("type", .str "RevoluteJoint")]])]) =
      (some scene, none)) := by
  refine ⟨rfl, ?_⟩
  exact c5_lazy_validation_amended.2.1
    [("objects", .list [.dict [("id", .str "a")]]),
     ("joints", .list [.dict [("type", .str "RevoluteJoint")]])]
    [.dict [("id", .str "a")]] [.dict [("type", .str "RevoluteJoint")]]
    rfl
    (by intro v hv
        simp only [List.mem_singleton] at hv
        subst hv
        exact ⟨[("id", .str "a")], rfl, ⟨"a", rfl⟩, rfl⟩)
    rfl
    (by intro j hj
        simp only [List.mem_singleton] at hj
        subst hj
        exact ⟨[("type", .str "RevoluteJoint")], rfl, rfl⟩)

/-- Agreement is reflexive. -/
theorem exceptAgrees_refl {α : Type} (x : Except PyErr α) : exceptAgrees x x := by
  cases x <;> simp [exceptAgrees]

/-- The two pulley resolvers differ only in the text of the
referential-integrity error: they agree on success and fail together. -/
theorem preparePulleyGen_agrees (msg1 msg2 : Val → Val → String) (jf : Obj) (m : ObjMap) :
    exceptAgrees (preparePulleyGen msg1 jf m) (preparePulleyGen msg2 jf m) := by
  unfold preparePulleyGen
  cases dget jf "object_a_id" with
  | none => trivial
  | some aId =>
      dsimp only
      cases dget jf "object_b_id" with
      | none => trivial
      | some bId =>
          dsimp only
          cases omLookup m aId <;> cases omLookup m bId
          · trivial
          · trivial
          · trivial
          · exact exceptAgrees_refl _
/-- The joint loops driven by agreeing resolvers agree. -/
theorem compileJoints_agrees (p1 p2 : Obj → ObjMap → Except PyErr Obj)
    (hp : ∀ jf m, exceptAgrees (p1 jf m) (p2 jf m)) (m : ObjMap) (js : List Val) :
    exceptAgrees (compileJoints p1 m js) (compileJoints p2 m js) := by
  induction js with
  | nil => exact exceptAgrees_refl _
  | cons j rest ih =>
      cases j with
      | dict jf =>
          cases htype : isStrEq (dget jf "type") "PulleyJoint"
          · simp only [compileJoints, htype, Bool.false_eq_true, if_false]
            cases h1 : compileJoints p1 m rest <;> cases h2 : compileJoints p2 m rest <;>
              rw [h1, h2] at ih <;> simp [exceptAgrees] at ih ⊢
            rw [ih]
          · simp only [compileJoints, htype, if_true]
            have hpj := hp jf m
            cases hq1 : p1 jf m <;> cases hq2 : p2 jf m <;>
              rw [hq1, hq2] at hpj <;> simp [exceptAgrees] at hpj ⊢
            subst hpj
            cases h1 : compileJoints p1 m rest <;> cases h2 : compileJoints p2 m rest <;>
              rw [h1, h2] at ih <;> simp [exceptAgrees] at ih ⊢
            rw [ih]
      | num q => trivial
      | str s => trivial
      | bool b => trivial
      | list l => trivial

/-- The two compiler cores differ only in their error messages: for the
same gravitational constant they succeed on the same inputs with equal
scenes. -/
theorem buildSceneCoreGen_agrees (msg1 msg2 : Val → Val → String) (g : ℚ) (mcp : Val) :
    exceptAgrees (buildSceneCoreGen msg1 g mcp) (buildSceneCoreGen msg2 g mcp) := by
  unfold buildSceneCoreGen
  cases dictGet mcp "world" (defaultWorld g) with
  | error e => trivial
  | ok w =>
  dsimp only
  cases dictGetSeq mcp "objects" with
  | error e => trivial
  | ok objsList =>
  dsimp only
  cases buildObjectsMap objsList [] with
  | error e => trivial
  | ok m =>
  dsimp only
  cases compileObjects objsList with
  | error e => trivial
  | ok outObjs =>
  dsimp only
  cases dictGetSeq mcp "joints" with
  | error e => trivial
  | ok js =>
  dsimp only
  have h := compileJoints_agrees (preparePulleyGen msg1) (preparePulleyGen msg2)
      (fun jf m' => preparePulleyGen_agrees msg1 msg2 jf m') m js
  cases h1 : compileJoints (preparePulleyGen msg1) m js <;>
    cases h2 : compileJoints (preparePulleyGen msg2) m js <;>
      rw [h1, h2] at h <;> simp [exceptAgrees] at h ⊢
  rw [h]

/-- C10: the module-level compiler and `compile_scene` of a
`PhysicsSceneCompiler` with the default gravity 9.8 succeed on exactly the
same inputs and return equal scene documents on success; only the failure
message text may differ. -/
theorem c10_module_class_agree (mcp : Val) :
    (build_scene_from_mcp mcp).1 = ((PhysicsSceneCompiler.mk 9.8).compile_scene mcp).1
  ∧ ((build_scene_from_mcp mcp).2 = none ↔
       ((PhysicsSceneCompiler.mk 9.8).compile_scene mcp).2 = none) := by
  have h := buildSceneCoreGen_agrees msgEN msgZH G mcp
  unfold build_scene_from_mcp PhysicsSceneCompiler.compile_scene
  rw [show (PhysicsSceneCompiler.mk 9.8).G = G from rfl]
  cases h1 : buildSceneCoreGen msgEN G mcp <;> cases h2 : buildSceneCoreGen msgZH G mcp <;>
    rw [h1, h2] at h <;> simp [exceptAgrees] at h ⊢
  exact h
